import Mathlib

/-!
Verification of the BountyCardStore (src/src/store/bountyCard.ts).

The store is browser-side glue code: it loads a workspace's bounty cards over
HTTP, enriches each card with a proof-of-work count obtained from a second
per-card request, and maintains a persisted feature-filter selection.

Shallow embedding choices:

* A `BountyCard` keeps only the fields the store observes: `id`, `status`,
  the optional feature uuid reachable as `card.features?.uuid` (modelled as
  `features : Option String`, where `none` means the features object or its
  uuid is absent, and `some ""` a present but empty uuid, which JavaScript
  treats as falsy exactly like absence), and the derived `pow` count.
  Unobserved payload fields are omitted; the object spreads in the source
  copy them verbatim, so they play no role in any claim.
* The network is an explicit environment `FetchEnv`: the outcome of the list
  GET, and a function from bounty id to the outcome of that card's proofs
  GET.  Operations return, besides the post-state, the list of fetch calls
  issued, so "performs no fetch" is a statement about that trace.
* `sessionStorage` under the single key `bountyFilterState` is modelled by
  `StoredVal`, classifying the stored string by how the restore path reacts
  to it: the key can be absent; the string can parse to a filter-record
  shape, to the JSON value null (whose member access then throws), or to
  some other non-null JSON value (whose `selectedFeatures` member — possibly
  the JS undefined — is assigned without throwing); or `JSON.parse` rejects
  it.  A thrown exception is an `Except.error` result, and the JS value
  held by `this.selectedFeatures` after a restore is a `JsMember`, since an
  arbitrary stored value can leave the field holding undefined or junk.
* `async`/`await` sequencing is compiled away: every operation is a pure
  function from pre-state (and environment) to post-state, with the one
  observable intermediate state of `switchWorkspace` (after the synchronous
  clear, before the reload) returned explicitly.
-/

set_option linter.unusedVariables false

namespace BountyCardModel

/-- A bounty card as observed by the store: identifier, workflow status,
the optional feature uuid (`card.features?.uuid`), and the proof-of-work
count written by the enrichment step. -/
structure BountyCard where
  id : String
  status : String
  features : Option String
  pow : Nat
deriving DecidableEq

/-- The record serialized to session storage by `saveFilterState`. -/
structure FilterState where
  selectedFeatures : List String
  timestamp : Nat
deriving DecidableEq

/-- What reading the `selectedFeatures` member of a parsed JS value can
yield, and hence what `this.selectedFeatures` can hold after a restore:
the member is absent (JS undefined), an array of strings, or some other
JS value. -/
inductive JsMember where
  | undef
  | strArray (xs : List String)
  | otherVal
deriving DecidableEq

/-- Content of the session-storage slot under the fixed key
`bountyFilterState`, classified by how the restore path reacts to the
stored string: the key is absent; the string parses to a
`FilterState`-shaped record; it parses to the JSON value null (so the
member access `state.selectedFeatures` throws a TypeError); it parses to
some other non-null JSON value, carrying what its `selectedFeatures`
member reads as; or `JSON.parse` rejects it.  The classes may overlap on
record shapes; each class's behaviour below matches the source for every
string it denotes. -/
inductive StoredVal where
  | absent
  | validJson (state : FilterState)
  | jsonNull
  | jsonOtherShape (member : JsMember)
  | invalidJson
deriving DecidableEq

/-- Observable state of `BountyCardStore`. -/
structure StoreState where
  bountyCards : List BountyCard
  currentWorkspaceId : String
  loading : Bool
  error : Option String
  selectedFeatures : List String
deriving DecidableEq

/-- Truthiness of `card.features?.uuid` in JavaScript: false when the
features object (or uuid) is absent, and for the empty string. -/
def uuidTruthy (c : BountyCard) : Bool :=
  match c.features with
  | none => false
  | some u => u != ""

/-- The feature identifier a card is filtered by, `none` exactly when the
source treats the card as having no feature (`!card.features?.uuid`). -/
def featureIdOf (c : BountyCard) : Option String :=
  match c.features with
  | none => none
  | some u => if u = "" then none else some u

/-- The derived `filteredBountyCards` getter, lines 175-197 of the source. -/
def filteredBountyCards (s : StoreState) : List BountyCard :=
  if s.selectedFeatures.length = 0 then
    s.bountyCards
  else
    s.bountyCards.filter fun card =>
      let hasNoFeature := !(uuidTruthy card)
      let isNoFeatureSelected := s.selectedFeatures.contains "no-feature"
      let hasSelectedFeature :=
        uuidTruthy card &&
          (match card.features with
           | some u => s.selectedFeatures.contains u
           | none => false)
      (hasNoFeature && isNoFeatureSelected) || hasSelectedFeature

/-- The derived `hasCardsWithoutFeatures` getter, lines 199-202. -/
def hasCardsWithoutFeatures (s : StoreState) : Bool :=
  s.bountyCards.any fun card => !(uuidTruthy card)

/-- `saveFilterState`, lines 136-145: overwrites the slot with the JSON
serialization of the current selection and the current time. -/
def saveFilterState (s : StoreState) (now : Nat) : StoredVal :=
  .validJson { selectedFeatures := s.selectedFeatures, timestamp := now }

/-- `restoreFilterState`, lines 147-156, acting on the JS value held by
`this.selectedFeatures` (initially the empty array).  When the key is
absent nothing is assigned; a stored value that parses to a non-null JSON
value has its `selectedFeatures` member assigned — a filter-record shape
restores the saved array, any other shape assigns whatever the member
reads as, possibly undefined, without throwing; the stored string parsing
to null makes the member access `state.selectedFeatures` throw a
TypeError; an invalid string makes `JSON.parse` throw a SyntaxError.  The
method has no try/catch, so either exception propagates
(`Except.error`). -/
def restoreFilterState (saved : StoredVal) (current : JsMember) :
    Except String JsMember :=
  match saved with
  | .absent => .ok current
  | .validJson st => .ok (.strArray st.selectedFeatures)
  | .jsonNull => .error "TypeError: cannot read properties of null"
  | .jsonOtherShape member => .ok member
  | .invalidJson => .error "SyntaxError: JSON.parse"

/-- `toggleFeature`, lines 158-166: remove every copy of the id if present
(`Array.prototype.filter`), else append it (`push`), then persist via
`saveFilterState`.  Returns the new state and the new storage content. -/
def toggleFeature (featureId : String) (now : Nat) (s : StoreState) :
    StoreState × StoredVal :=
  let s' :=
    if s.selectedFeatures.contains featureId then
      { s with selectedFeatures := s.selectedFeatures.filter fun x => x != featureId }
    else
      { s with selectedFeatures := s.selectedFeatures ++ [featureId] }
  (s', saveFilterState s' now)

/-- `clearAllFilters`, lines 168-173: empty the selection, remove the
stored key, then persist the now-empty state (so the slot ends up holding
an empty-array record, not absent). -/
def clearAllFilters (now : Nat) (s : StoreState) : StoreState × StoredVal :=
  let s' := { s with selectedFeatures := [] }
  let afterRemove : StoredVal := .absent
  let afterSave : StoredVal := saveFilterState s' now
  (s', afterSave)

/-- Outcome of one per-card proofs GET as the source observes it:
non-success status, a thrown fetch/parse error (caught by the per-card
try/catch), or a parsed body that is or is not an array. -/
inductive ProofBody where
  | arr (proofs : List Unit)
  | notArr
deriving DecidableEq

/-- Result of `fetch` on `/gobounties/{id}/proofs` followed by `.json()`. -/
inductive ProofResult where
  | httpNotOk
  | fetchThrew
  | okBody (body : ProofBody)
deriving DecidableEq

/-- Result of the primary list GET on `/gobounties/bounty-cards`:
non-success status (the code then throws with the status text), a thrown
transport error carrying its message, or a JSON body that is an array of
cards or null. -/
inductive ListFetchResult where
  | httpNotOk (statusText : String)
  | fetchThrew (message : String)
  | okBody (data : Option (List BountyCard))

/-- The network environment a single load runs against. -/
structure FetchEnv where
  listResult : ListFetchResult
  proofResult : String → ProofResult

/-- One HTTP request issued by the store. -/
inductive FetchCall where
  | list (workspaceUuid : String)
  | proofs (bountyId : String)
deriving DecidableEq

/-- The per-card enrichment closure, lines 61-85: any failure mode
degrades to `pow = 0`; a successful array body yields its length. -/
def enrichCard (env : FetchEnv) (bounty : BountyCard) : BountyCard :=
  match env.proofResult bounty.id with
  | .httpNotOk => { bounty with pow := 0 }
  | .fetchThrew => { bounty with pow := 0 }
  | .okBody .notArr => { bounty with pow := 0 }
  | .okBody (.arr proofs) => { bounty with pow := proofs.length }

/-- Falsiness of `uiStore.meInfo?.tribe_jwt`: the token is absent or the
empty string. -/
def jwtFalsy : Option String → Bool
  | none => true
  | some t => t == ""

/-- `loadWorkspaceBounties`, lines 27-103, as a pure function of the token,
the network environment and the pre-state.  Returns the post-state and the
trace of fetch calls issued.  The precondition branch (lines 30-35) sets
only `error` and returns before the try/finally, so it touches neither
`loading` nor `bountyCards` and performs no fetch. -/
def loadWorkspaceBounties (jwt : Option String) (env : FetchEnv)
    (s : StoreState) : StoreState × List FetchCall :=
  if s.currentWorkspaceId == "" || jwtFalsy jwt then
    ({ s with error := some "Missing workspace ID or authentication" }, [])
  else
    let s1 := { s with loading := true, error := none }
    let listCall := FetchCall.list s.currentWorkspaceId
    match env.listResult with
    | .httpNotOk statusText =>
        ({ s1 with
            error := some ("Failed to load bounties: " ++ statusText),
            loading := false },
         [listCall])
    | .fetchThrew message =>
        ({ s1 with error := some message, loading := false }, [listCall])
    | .okBody data =>
        let cards := data.getD []
        let bountyCardsWithProofs := cards.map (enrichCard env)
        ({ s1 with bountyCards := bountyCardsWithProofs, loading := false },
         listCall :: cards.map fun b => FetchCall.proofs b.id)

/-- `switchWorkspace`, lines 105-114.  Returns the observable intermediate
state (after the synchronous id update and clear, before the reload), the
final state, and the fetch trace.  The no-op branch returns the pre-state
twice with an empty trace. -/
def switchWorkspace (newWorkspaceId : String) (jwt : Option String)
    (env : FetchEnv) (s : StoreState) :
    StoreState × StoreState × List FetchCall :=
  if s.currentWorkspaceId == newWorkspaceId then
    (s, s, [])
  else
    let sMid := { s with currentWorkspaceId := newWorkspaceId, bountyCards := [] }
    let r := loadWorkspaceBounties jwt env sMid
    (sMid, r.1, r.2)

/-- A fresh store bound to workspace `w1`, as the constructor initializes
it before the initial load. -/
def stInit : StoreState :=
  { bountyCards := []
    currentWorkspaceId := "w1"
    loading := false
    error := none
    selectedFeatures := [] }

/-- Sample card carrying feature `f1`. -/
def cardA : BountyCard := { id := "b1", status := "TODO", features := some "f1", pow := 0 }

/-- Sample card with no features object. -/
def cardB : BountyCard := { id := "b2", status := "IN_PROGRESS", features := none, pow := 0 }

/-- Environment where the list GET returns both sample cards and every
proofs GET succeeds with an array (3 proofs for `b1`, none for `b2`). -/
def envOk : FetchEnv :=
  { listResult := .okBody (some [cardA, cardB])
    proofResult := fun i =>
      if i == "b1" then .okBody (.arr [(), (), ()]) else .okBody (.arr []) }

/-- Environment where `b2`'s proofs GET fails with a non-success status
while `b1`'s succeeds with 2 proofs. -/
def envMixed : FetchEnv :=
  { listResult := .okBody (some [cardA, cardB])
    proofResult := fun i =>
      if i == "b1" then .okBody (.arr [(), ()]) else .httpNotOk }

/-- Environment where the list GET succeeds but the body is null. -/
def envNull : FetchEnv :=
  { listResult := .okBody none
    proofResult := fun _ => .httpNotOk }

/-- A state in which an earlier load is still in flight. -/
def stLoadingTrue : StoreState := { stInit with loading := true }

/-- True when a modelled operation ended in a propagated exception. -/
def isThrown : Except String JsMember → Bool
  | .error _ => true
  | .ok _ => false

/-- The list membership reading of `Array.prototype.includes`. -/
lemma contains_iff (sel : List String) (a : String) :
    sel.contains a = true ↔ a ∈ sel := List.elem_iff

end BountyCardModel

namespace BountyCardModel

/-- The filter predicate of `filteredBountyCards`, characterized per card:
kept iff the card has no (truthy) feature uuid and the sentinel is
selected, or its feature uuid is selected. -/
lemma filter_pred_iff (sel : List String) (c : BountyCard) :
    (((!(uuidTruthy c)) && sel.contains "no-feature") ||
      (uuidTruthy c &&
        (match c.features with
         | some u => sel.contains u
         | none => false))) = true ↔
      ((featureIdOf c = none ∧ "no-feature" ∈ sel) ∨
        ∃ u, featureIdOf c = some u ∧ u ∈ sel) := by
  cases hf : c.features with
  | none =>
      simp [uuidTruthy, featureIdOf, hf, contains_iff]
  | some u =>
      by_cases hu : u = "" <;>
        simp [uuidTruthy, featureIdOf, hf, hu, contains_iff]

/-- C2: with an empty selection `filteredBountyCards` returns all of
`bountyCards` unfiltered; with a nonempty selection a card is included iff
it either has no feature identifier while the sentinel "no-feature" is
selected, or its feature identifier is in `selectedFeatures`. -/
theorem C2_filteredBountyCards (s : StoreState) :
    (s.selectedFeatures = [] → filteredBountyCards s = s.bountyCards) ∧
    (s.selectedFeatures ≠ [] → ∀ c,
      c ∈ filteredBountyCards s ↔
        c ∈ s.bountyCards ∧
          ((featureIdOf c = none ∧ "no-feature" ∈ s.selectedFeatures) ∨
            ∃ u, featureIdOf c = some u ∧ u ∈ s.selectedFeatures)) := by
  constructor
  · intro h
    simp [filteredBountyCards, h]
  · intro h c
    have hlen : ¬ s.selectedFeatures.length = 0 := by
      simpa [List.length_eq_zero] using h
    rw [filteredBountyCards, if_neg hlen, List.mem_filter]
    exact and_congr_right fun _ => filter_pred_iff s.selectedFeatures c

/-- C2 witness at a concrete state with an empty selection. -/
theorem C2_witness : filteredBountyCards stInit = stInit.bountyCards :=
  (C2_filteredBountyCards stInit).1 rfl

/-- C6 amended: `restoreFilterState` does not throw when the key is absent
(assigning nothing, so `selectedFeatures` keeps its default empty array)
nor for any stored value that parses to a non-null JSON value — a
filter-record shape restores the saved selection, any other shape merely
assigns its `selectedFeatures` member, possibly undefined, to the field;
it throws exactly for a stored value that is not valid JSON (SyntaxError
from `JSON.parse`) or one that parses to null (TypeError from the member
access). -/
theorem C6_restoreFilterState (cur : JsMember) (fs : FilterState)
    (m : JsMember) :
    restoreFilterState StoredVal.absent cur = Except.ok cur ∧
    restoreFilterState (StoredVal.validJson fs) cur =
      Except.ok (JsMember.strArray fs.selectedFeatures) ∧
    restoreFilterState (StoredVal.jsonOtherShape m) cur = Except.ok m ∧
    isThrown (restoreFilterState StoredVal.absent cur) = false ∧
    isThrown (restoreFilterState (StoredVal.validJson fs) cur) = false ∧
    isThrown (restoreFilterState (StoredVal.jsonOtherShape m) cur) = false :=
  ⟨rfl, rfl, rfl, rfl, rfl, rfl⟩

/-- C6 counterexample: the stored string parsing to the valid JSON value
null makes the member access `state.selectedFeatures` throw a TypeError,
and an invalid-JSON stored string makes `JSON.parse` throw a SyntaxError;
in both cases `restoreFilterState` — invoked without try/catch from the
constructor — propagates the exception, refuting the claim that no stored
value under the fixed key can make it throw. -/
theorem C6_counterexample :
    isThrown (restoreFilterState StoredVal.jsonNull (JsMember.strArray []))
        = true ∧
    isThrown (restoreFilterState StoredVal.invalidJson
        (JsMember.strArray [])) = true :=
  ⟨rfl, rfl⟩

/-- Membership in the selection after a toggle: the toggled id flips, any
other id keeps its membership. -/
lemma toggleFeature_mem (featureId g : String) (now : Nat) (s : StoreState) :
    g ∈ (toggleFeature featureId now s).1.selectedFeatures ↔
      (if g = featureId then featureId ∉ s.selectedFeatures
       else g ∈ s.selectedFeatures) := by
  by_cases hc : featureId ∈ s.selectedFeatures <;>
    by_cases hg : g = featureId
  · subst hg
    simp [toggleFeature, hc, List.mem_filter]
  · simp [toggleFeature, hc, List.mem_filter, hg]
  · subst hg
    simp [toggleFeature, hc]
  · simp [toggleFeature, hc, hg]

/-- C7: `toggleFeature` is a symmetric-difference update of
`selectedFeatures` — the toggled id is a member afterward iff it was not
before, every other id's membership is unchanged — it immediately persists
the new selection, and toggling the same id twice restores the original
membership. -/
theorem C7_toggleFeature (featureId : String) (now : Nat) (s : StoreState) :
    (featureId ∈ (toggleFeature featureId now s).1.selectedFeatures ↔
      featureId ∉ s.selectedFeatures) ∧
    (∀ g, g ≠ featureId →
      (g ∈ (toggleFeature featureId now s).1.selectedFeatures ↔
        g ∈ s.selectedFeatures)) ∧
    (toggleFeature featureId now s).2 =
      StoredVal.validJson
        { selectedFeatures := (toggleFeature featureId now s).1.selectedFeatures
          timestamp := now } ∧
    ∀ g,
      g ∈ (toggleFeature featureId now
            (toggleFeature featureId now s).1).1.selectedFeatures ↔
        g ∈ s.selectedFeatures := by
  refine ⟨?_, ?_, ?_, ?_⟩
  · simpa using toggleFeature_mem featureId featureId now s
  · intro g hg
    simpa [hg] using toggleFeature_mem featureId g now s
  · cases hc : s.selectedFeatures.contains featureId <;>
      simp [toggleFeature, saveFilterState, hc]
  · intro g
    by_cases hg : g = featureId
    · subst hg
      simp [toggleFeature_mem]
    · simp [toggleFeature_mem, hg]

/-- C7 witness: toggling `f1` on the empty selection makes it selected. -/
theorem C7_witness :
    "f1" ∈ (toggleFeature "f1" 5 stInit).1.selectedFeatures :=
  (C7_toggleFeature "f1" 5 stInit).1.2 (by decide)

/-- C8: after `clearAllFilters` the selection is empty, the storage slot
holds a record with an empty selectedFeatures array (not an absent key,
since the remove is followed by a persist), and `filteredBountyCards`
returns all of `bountyCards`, which the operation left untouched. -/
theorem C8_clearAllFilters (now : Nat) (s : StoreState) :
    (clearAllFilters now s).1.selectedFeatures = [] ∧
    (clearAllFilters now s).2 =
      StoredVal.validJson { selectedFeatures := [], timestamp := now } ∧
    (clearAllFilters now s).2 ≠ StoredVal.absent ∧
    filteredBountyCards (clearAllFilters now s).1 =
      (clearAllFilters now s).1.bountyCards ∧
    (clearAllFilters now s).1.bountyCards = s.bountyCards := by
  refine ⟨rfl, rfl, ?_, ?_, rfl⟩
  · simp [clearAllFilters, saveFilterState]
  · simp [filteredBountyCards, clearAllFilters]

end BountyCardModel

namespace BountyCardModel

/-- The precondition test of lines 30-35 is false exactly when the
workspace id is nonempty and the token is present and nonempty. -/
lemma precondition_false (jwt : String) (s : StoreState)
    (hws : s.currentWorkspaceId ≠ "") (hjwt : jwt ≠ "") :
    (s.currentWorkspaceId == "" || jwtFalsy (some jwt)) = false := by
  simp [jwtFalsy, hws, hjwt]

/-- C1: on a successful list fetch of N cards with every per-card proof
fetch succeeding with an array, `loadWorkspaceBounties` replaces
`bountyCards` wholesale with the enriched cards in response order — a list
of length N — and the enrichment gives each card a `pow` equal to the
length of its proof array. -/
theorem C1_load_success (jwt : String) (env : FetchEnv) (s : StoreState)
    (cards : List BountyCard)
    (hws : s.currentWorkspaceId ≠ "") (hjwt : jwt ≠ "")
    (hlist : env.listResult = ListFetchResult.okBody (some cards)) :
    (loadWorkspaceBounties (some jwt) env s).1.bountyCards =
      cards.map (enrichCard env) ∧
    (loadWorkspaceBounties (some jwt) env s).1.bountyCards.length =
      cards.length ∧
    ∀ c ∈ cards, ∀ proofs,
      env.proofResult c.id = ProofResult.okBody (ProofBody.arr proofs) →
        (enrichCard env c).pow = proofs.length := by
  have hc := precondition_false jwt s hws hjwt
  refine ⟨?_, ?_, ?_⟩
  · simp [loadWorkspaceBounties, hc, hlist]
  · simp [loadWorkspaceBounties, hc, hlist]
  · intro c hmem proofs hp
    simp [enrichCard, hp]

/-- C1 witness: two cards, both proof fetches succeed with arrays. -/
theorem C1_witness :
    (loadWorkspaceBounties (some "jwt") envOk stInit).1.bountyCards.length = 2 :=
  (C1_load_success "jwt" envOk stInit [cardA, cardB]
    (by decide) (by decide) rfl).2.1

/-- C3: on a successful list fetch, the whole batch is committed and no
error is set, whatever the per-card proof outcomes; a card whose proof
fetch failed (non-success status, thrown error, or non-array body) gets
`pow = 0`, and a card whose proof fetch returned an array gets its
length. -/
theorem C3_proof_failure_degrades (jwt : String) (env : FetchEnv)
    (s : StoreState) (cards : List BountyCard)
    (hws : s.currentWorkspaceId ≠ "") (hjwt : jwt ≠ "")
    (hlist : env.listResult = ListFetchResult.okBody (some cards)) :
    (loadWorkspaceBounties (some jwt) env s).1.error = none ∧
    (loadWorkspaceBounties (some jwt) env s).1.bountyCards =
      cards.map (enrichCard env) ∧
    ∀ c ∈ cards,
      ((env.proofResult c.id = ProofResult.httpNotOk ∨
          env.proofResult c.id = ProofResult.fetchThrew ∨
          env.proofResult c.id = ProofResult.okBody ProofBody.notArr) →
        (enrichCard env c).pow = 0) ∧
      (∀ proofs,
        env.proofResult c.id = ProofResult.okBody (ProofBody.arr proofs) →
          (enrichCard env c).pow = proofs.length) := by
  have hc := precondition_false jwt s hws hjwt
  refine ⟨?_, ?_, ?_⟩
  · simp [loadWorkspaceBounties, hc, hlist]
  · simp [loadWorkspaceBounties, hc, hlist]
  · intro c hmem
    constructor
    · rintro (hp | hp | hp) <;> simp [enrichCard, hp]
    · intro proofs hp
      simp [enrichCard, hp]

/-- C3 witness: card `b2`'s proof fetch fails with a non-success status
yet the load ends with no error set. -/
theorem C3_witness :
    (loadWorkspaceBounties (some "jwt") envMixed stInit).1.error = none :=
  (C3_proof_failure_degrades "jwt" envMixed stInit [cardA, cardB]
    (by decide) (by decide) rfl).1

/-- C4: when the workspace id or the token is falsy, the load performs no
fetch, sets `error` to the fixed non-empty message, and leaves
`bountyCards` and `loading` exactly as they were — in particular empty and
false on a fresh store. -/
theorem C4_precondition (jwt : Option String) (env : FetchEnv)
    (s : StoreState)
    (h : s.currentWorkspaceId = "" ∨ jwtFalsy jwt = true) :
    (loadWorkspaceBounties jwt env s).1.error =
      some "Missing workspace ID or authentication" ∧
    "Missing workspace ID or authentication" ≠ "" ∧
    (loadWorkspaceBounties jwt env s).2 = [] ∧
    (loadWorkspaceBounties jwt env s).1.bountyCards = s.bountyCards ∧
    (loadWorkspaceBounties jwt env s).1.loading = s.loading := by
  have hc : (s.currentWorkspaceId == "" || jwtFalsy jwt) = true := by
    rcases h with h | h <;> simp [h]
  refine ⟨?_, by decide, ?_, ?_, ?_⟩ <;> simp [loadWorkspaceBounties, hc]

/-- C4 witness: missing token on a fresh store. -/
theorem C4_witness :
    (loadWorkspaceBounties none envOk stInit).1.error =
      some "Missing workspace ID or authentication" :=
  (C4_precondition none envOk stInit (Or.inr rfl)).1

/-- C5 amended: on every path that passes the precondition check (HTTP
failure or success) `loading` is false afterward; on a precondition
failure the early return skips the try/finally, so `loading` keeps its
prior value. -/
theorem C5_loading_cleared (jwt : Option String) (env : FetchEnv)
    (s : StoreState) :
    ((s.currentWorkspaceId == "" || jwtFalsy jwt) = false →
      (loadWorkspaceBounties jwt env s).1.loading = false) ∧
    ((s.currentWorkspaceId == "" || jwtFalsy jwt) = true →
      (loadWorkspaceBounties jwt env s).1.loading = s.loading) := by
  constructor
  · intro h
    cases hE : env.listResult <;> simp [loadWorkspaceBounties, h, hE]
  · intro h
    simp [loadWorkspaceBounties, h]

/-- C5 witness: with valid preconditions and a successful fetch, `loading`
ends false. -/
theorem C5_witness :
    (loadWorkspaceBounties (some "jwt") envOk stInit).1.loading = false :=
  (C5_loading_cleared (some "jwt") envOk stInit).1 rfl

/-- C5 counterexample: invoked with a missing token while an earlier load
is still in flight (`loading = true`), `loadWorkspaceBounties` completes
with `loading` still true, refuting "loading is false after every
completion path from any starting state". -/
theorem C5_counterexample :
    (loadWorkspaceBounties none envOk stLoadingTrue).1.loading ≠ false := by
  decide

/-- C9: switching to a different workspace id first (synchronously)
installs the new id and clears `bountyCards` — the observable intermediate
state — and only then runs the reload from that cleared state. -/
theorem C9_switchWorkspace (newWorkspaceId : String) (jwt : Option String)
    (env : FetchEnv) (s : StoreState)
    (h : s.currentWorkspaceId ≠ newWorkspaceId) :
    (switchWorkspace newWorkspaceId jwt env s).1.bountyCards = [] ∧
    (switchWorkspace newWorkspaceId jwt env s).1.currentWorkspaceId =
      newWorkspaceId ∧
    (switchWorkspace newWorkspaceId jwt env s).2.1 =
      (loadWorkspaceBounties jwt env
        (switchWorkspace newWorkspaceId jwt env s).1).1 := by
  have hc : (s.currentWorkspaceId == newWorkspaceId) = false := by simp [h]
  refine ⟨?_, ?_, ?_⟩ <;> simp [switchWorkspace, hc]

/-- C9 witness: switching the fresh `w1` store to `w2`. -/
theorem C9_witness :
    (switchWorkspace "w2" (some "jwt") envOk stInit).1.bountyCards = [] :=
  (C9_switchWorkspace "w2" (some "jwt") envOk stInit (by decide)).1

/-- C10: when the list fetch succeeds but the body deserializes to null,
the load commits `bountyCards` as the empty list, issues no per-card proof
fetch (the trace is just the list call), and leaves `error` unset. -/
theorem C10_null_body (jwt : String) (env : FetchEnv) (s : StoreState)
    (hws : s.currentWorkspaceId ≠ "") (hjwt : jwt ≠ "")
    (hlist : env.listResult = ListFetchResult.okBody none) :
    (loadWorkspaceBounties (some jwt) env s).1.bountyCards = [] ∧
    (loadWorkspaceBounties (some jwt) env s).1.error = none ∧
    (loadWorkspaceBounties (some jwt) env s).2 =
      [FetchCall.list s.currentWorkspaceId] := by
  have hc := precondition_false jwt s hws hjwt
  refine ⟨?_, ?_, ?_⟩ <;> simp [loadWorkspaceBounties, hc, hlist]

/-- C10 witness: a null list body on the fresh store. -/
theorem C10_witness :
    (loadWorkspaceBounties (some "jwt") envNull stInit).1.bountyCards = [] :=
  (C10_null_body "jwt" envNull stInit (by decide) (by decide) rfl).1

end BountyCardModel

namespace BountyCardModel

/-- C6 witness: restoring with the key absent leaves the field at its
default empty array. -/
theorem C6_witness :
    restoreFilterState StoredVal.absent (JsMember.strArray []) =
      Except.ok (JsMember.strArray []) :=
  (C6_restoreFilterState (JsMember.strArray [])
    { selectedFeatures := [], timestamp := 0 } JsMember.undef).1

/-- C8 witness: clearing all filters on the fresh store empties the
selection. -/
theorem C8_witness : (clearAllFilters 7 stInit).1.selectedFeatures = [] :=
  (C8_clearAllFilters 7 stInit).1

end BountyCardModel
